import Mathlib

/-!
Verification of the deterministic calculation core of the myHealth fitness agent.

The embedded functions mirror, one for one, the pure computational functions of
the repository:

* `calculateEstimated1RM` and `getProgressionLogic` from `src/tools/fitness-tools.ts`;
* the effort interpreter from the `interpret_effort` tool handler in the same file;
* `generatePlan` from `src/tools/plan-tools` (shipped inside `src/types/index.ts`
  in this snapshot);
* the `calculate_periodization` and `optimize_hybrid_schedule` tool handlers from
  the same file.

JavaScript numbers are modelled as exact rationals (`ℚ`); `Math.round` is
`⌊x + 1/2⌋` (round half up, as in JS); `Math.floor` on the periodization week
products is exact natural division, which coincides with the float computation
for every `totalWeeks` in the schema range 4..16 (the products `t*0.5`, `t*0.35`,
`t*0.4` stay at least 0.05 away from any integer there, far beyond double
rounding error, except the exact multiples of 0.4 which round back to the exact
integer). Strings are modelled as `List Char`.
-/

namespace MyHealth

/-- JavaScript `Math.round`: round half toward positive infinity. Stated via
the executable `Rat.floor` so that concrete instances evaluate by `decide`. -/
def jsRound (x : ℚ) : ℤ := Rat.floor (x + 1/2)

/-- `jsRound` agrees with the mathematical floor of `x + 1/2`. -/
theorem jsRound_eq_floor (x : ℚ) : jsRound x = ⌊x + 1/2⌋ := by
  rw [jsRound, Rat.floor_def', Rat.floor_def]

/-- `calculateEstimated1RM` (fitness-tools.ts): Epley formula,
`reps == 1` returns the weight unchanged, otherwise
`Math.round(weight * (1 + reps / 30) * 10) / 10`. -/
def calculateEstimated1RM (weight : ℚ) (reps : ℕ) : ℚ :=
  if reps = 1 then weight
  else (jsRound (weight * (1 + (reps : ℚ) / 30) * 10) : ℚ) / 10

/-- The `Equipment` union type (types/index.ts). -/
inductive Equipment
  | barbell | dumbbell | cable | machine | bodyweight | kettlebell | ez_bar
deriving DecidableEq, Repr, Fintype

/-- Trend labels of a `ProgressionRecommendation` (types/index.ts). -/
inductive Trend
  | progressing | plateau | regressing | deload_needed
deriving DecidableEq, Repr, Fintype

/-- The numeric/enum content of the record returned by `getProgressionLogic`
(the `reasoning` string is omitted; no claim concerns it). -/
structure ProgressionResult where
  weight : ℚ
  repsMin : ℤ
  repsMax : ℤ
  trend : Trend
deriving DecidableEq, Repr

/-- The `increment` local of `getProgressionLogic`:
`equipment === 'barbell' ? 2.5 : 1.25`. -/
def equipIncrement (equipment : Equipment) : ℚ :=
  if equipment = Equipment.barbell then 5/2 else 5/4

/-- `getProgressionLogic` (fitness-tools.ts): RPE-banded rule table. -/
def getProgressionLogic (lastWeight : ℚ) (lastReps : ℤ) (lastRPE : ℤ)
    (equipment : Equipment) : ProgressionResult :=
  if lastRPE ≤ 7 then
    { weight := lastWeight + equipIncrement equipment
      repsMin := lastReps - 1, repsMax := lastReps + 1
      trend := Trend.progressing }
  else if lastRPE = 8 then
    { weight := lastWeight
      repsMin := lastReps, repsMax := lastReps + 2
      trend := Trend.progressing }
  else if lastRPE = 9 then
    { weight := lastWeight
      repsMin := lastReps - 1, repsMax := lastReps
      trend := Trend.plateau }
  else
    { weight := lastWeight * (9/10)
      repsMin := lastReps, repsMax := lastReps + 2
      trend := Trend.deload_needed }

/-- Rounding a rational to one decimal place the way the spec describes
(`Math.round(x * 10) / 10`); used to state the spec's rounding claim about
the deload branch, which the code itself does not perform. -/
def roundTo1 (x : ℚ) : ℚ := (jsRound (x * 10) : ℚ) / 10

/-! ### Effort interpreter (`interpret_effort` tool handler, fitness-tools.ts) -/

/-- JavaScript `String.prototype.includes`: substring containment. -/
def containsSub (pat : List Char) : List Char → Bool
  | [] => pat.isPrefixOf []
  | c :: cs => pat.isPrefixOf (c :: cs) || containsSub pat cs

/-- ASCII decimal digit, the `\d` character class of the regex. -/
def isDigitCh (c : Char) : Bool := ('0' ≤ c) && (c ≤ '9')

/-- ASCII members of the `\s` character class of the regex (the
counterexamples and witnesses below use only plain spaces). -/
def isSpaceCh (c : Char) : Bool :=
  c = ' ' || c = '\t' || c = '\n' || c = '\r' || c = '\x0b' || c = '\x0c'

/-- `parseInt` on a non-empty all-digit capture. -/
def digitsToNat (ds : List Char) : ℕ :=
  ds.foldl (fun a c => a * 10 + (c.toNat - 48)) 0

/-- The keyword `more` of the regex `/(\d+)\s*more/`. -/
def kwMore : List Char := ("more").toList

/-- Attempt to match the regex `/(\d+)\s*more/` anchored at the head of the
list, returning the parsed capture group. Greedy matching without backtracking
is exact here: after the maximal digit run, a leftover digit can satisfy
neither `\s*` nor the literal `m`. -/
def matchNumMoreAt (l : List Char) : Option ℕ :=
  let ds := l.takeWhile isDigitCh
  if ds.isEmpty then none
  else
    let rest := (l.dropWhile isDigitCh).dropWhile isSpaceCh
    if kwMore.isPrefixOf rest then some (digitsToNat ds) else none

/-- Leftmost match of `/(\d+)\s*more/` (`desc.match(...)` in the handler). -/
def findNumMore : List Char → Option ℕ
  | [] => none
  | c :: cs =>
    match matchNumMoreAt (c :: cs) with
    | some n => some n
    | none => findNumMore cs

/-- The `interpret_effort` tool handler: case-insensitive keyword scan mapped
to an RPE value. Branch order follows the source exactly. The handler
lowercases the description first (`args.description.toLowerCase()`). -/
def interpretEffort (description : List Char) : ℤ :=
  let d := description.map Char.toLower
  if containsSub (("easy").toList) d || containsSub (("warm-up").toList) d
      || containsSub (("leicht").toList) d then
    5
  else if containsSub (("could do").toList) d && containsSub (("more").toList) d then
    let repsInReserve := (findNumMore d).getD 3
    10 - (repsInReserve : ℤ)
  else if containsSub (("good").toList) d || containsSub (("solid").toList) d
      || containsSub (("gut").toList) d then
    7
  else if containsSub (("hard").toList) d || containsSub (("tough").toList) d
      || containsSub (("schwer").toList) d then
    8
  else if containsSub (("grind").toList) d || containsSub (("struggle").toList) d
      || containsSub (("max").toList) d then
    9
  else if containsSub (("fail").toList) d
      || containsSub (("couldn").toList ++ (Char.ofNat 39 :: ("t").toList)) d then
    10
  else
    7

/-! ### Periodization calculator (`calculate_periodization` tool handler) -/

/-- Phase labels pushed by the periodization handler. The peaking branch labels
non-deload weeks with the string `Week ${w}`, modelled by `weekLabel w`. -/
inductive Phase
  | accumulation | intensification | deload
  | volumePhase | strengthPhase | peakingPhase
  | weekLabel (w : ℕ)
deriving DecidableEq, Repr

/-- One element of the `phases` array (week number and phase label; the
intensity/volume/notes strings carry no content the claims mention). -/
structure PhaseEntry where
  week : ℕ
  phase : Phase
deriving DecidableEq, Repr

/-- The goal enum of `calculate_periodization`. -/
inductive PeriodizationGoal
  | hypertrophy | strength | peaking
deriving DecidableEq, Repr, Fintype

/-- The `calculate_periodization` tool handler. `Math.floor(totalWeeks * 0.5)`,
`* 0.35`, `* 0.4` are modelled as the exact natural divisions
`totalWeeks * 50 / 100` etc.; for the schema range `totalWeeks ∈ [4,16]` the
double-precision products round to the same floor. In the hypertrophy branch
the source computes a `deloadWeeks` local that is never read; the deload loop
itself runs only under `includeDeload`, exactly as modelled here. -/
def calculatePeriodization (totalWeeks : ℕ) (goal : PeriodizationGoal)
    (includeDeload : Bool) : List PhaseEntry :=
  match goal with
  | PeriodizationGoal.hypertrophy =>
    let accumWeeks := totalWeeks * 50 / 100
    let intensWeeks := totalWeeks * 35 / 100
    (List.range' 1 accumWeeks).map (fun w => ⟨w, Phase.accumulation⟩)
      ++ (List.range' (accumWeeks + 1) intensWeeks).map
          (fun w => ⟨w, Phase.intensification⟩)
      ++ (if includeDeload then
            (List.range' (accumWeeks + intensWeeks + 1)
                (totalWeeks - (accumWeeks + intensWeeks))).map
              (fun w => ⟨w, Phase.deload⟩)
          else [])
  | PeriodizationGoal.strength =>
    let volWeeks := totalWeeks * 40 / 100
    let strWeeks := totalWeeks * 40 / 100
    (List.range' 1 volWeeks).map (fun w => ⟨w, Phase.volumePhase⟩)
      ++ (List.range' (volWeeks + 1) strWeeks).map
          (fun w => ⟨w, Phase.strengthPhase⟩)
      ++ (List.range' (volWeeks + strWeeks + 1) (totalWeeks - (volWeeks + strWeeks))).map
          (fun w =>
            ⟨w, if includeDeload ∧ w = totalWeeks then Phase.deload
                else Phase.peakingPhase⟩)
  | PeriodizationGoal.peaking =>
    (List.range' 1 totalWeeks).map
      (fun w =>
        ⟨w, if includeDeload ∧ w % 4 = 0 then Phase.deload else Phase.weekLabel w⟩)

/-! ### Hybrid schedule optimizer (`optimize_hybrid_schedule` tool handler) -/

/-- The cardio type enum; it only flows into note strings in the source, never
into the schedule structure, but is kept as a parameter for fidelity. -/
inductive CardioType
  | running | cycling | swimming | mixed
deriving DecidableEq, Repr, Fintype

/-- The `prioritize` enum of `optimize_hybrid_schedule`. -/
inductive Priority
  | strength | cardio | balanced
deriving DecidableEq, Repr, Fintype

/-- Activity strings of the schedule entries. -/
inductive Activity
  | upperBody | lowerBody | easyCardio | qualityCardio | rest
deriving DecidableEq, Repr, Fintype

/-- One schedule entry: `day` is the weekday index into
`['Monday',...,'Sunday']` (0 = Monday); the note string is not modelled. -/
structure SchedEntry where
  day : ℕ
  activity : Activity
deriving DecidableEq, Repr

/-- The `strengthSchedule` weekday pattern keyed by strength-day count
(`4 → Mon/Wed/Fri/Sat, 3 → Mon/Wed/Fri, else → Mon/Thu`). -/
def strengthPattern (strengthDays : ℕ) : List ℕ :=
  if strengthDays = 4 then [0, 2, 4, 5]
  else if strengthDays = 3 then [0, 2, 4]
  else [0, 3]

/-- The cardio-priority weekday pattern (`3 → Tue/Thu/Sat, else → Tue/Fri`). -/
def cardioPattern (cardioDays : ℕ) : List ℕ :=
  if cardioDays = 3 then [1, 3, 5] else [1, 4]

/-- The `nextDayIsLegs` test of the cardio fill loop:
`strengthSchedule.some((s, idx) => s === (i + 1) % 7 && idx % 2 === 0)`.
Note the source tests slot parity 0 unconditionally, although for
`strengthDays = 2` the leg slots are the odd ones. -/
def legCheckNext (pat : List ℕ) (i : ℕ) : Bool :=
  pat.enum.any (fun p => p.2 == (i + 1) % 7 && p.1 % 2 == 0)

/-- The cardio fill loop of the strength-first branch: walk the week, skip
strength days, add cardio until the requested count is reached. -/
def cardioFillGo (pat : List ℕ) (cardioDays : ℕ) (priority : Priority) :
    List ℕ → ℕ → List SchedEntry
  | [], _ => []
  | i :: rest, added =>
    if added < cardioDays then
      if pat.contains i then cardioFillGo pat cardioDays priority rest added
      else
        let isEasy := legCheckNext pat i || priority == Priority.strength
        ⟨i, if isEasy then Activity.easyCardio else Activity.qualityCardio⟩
          :: cardioFillGo pat cardioDays priority rest (added + 1)
    else []

/-- The strength fill loop of the cardio-priority branch: walk the week, skip
cardio days and days immediately after a cardio day, alternate Upper/Lower by
insertion parity. `cardioSet.has(i - 1)` is false in JS at `i = 0`
(`has(-1)`), hence the explicit `i != 0` guard. -/
def strengthFillGo (cset : List ℕ) (strengthDays : ℕ) :
    List ℕ → ℕ → List SchedEntry
  | [], _ => []
  | i :: rest, added =>
    if added < strengthDays then
      if cset.contains i || (i != 0 && cset.contains (i - 1)) then
        strengthFillGo cset strengthDays rest added
      else
        ⟨i, if added % 2 == 0 then Activity.upperBody else Activity.lowerBody⟩
          :: strengthFillGo cset strengthDays rest (added + 1)
    else []

/-- Stable insertion into a day-sorted list. -/
def insertByDay (e : SchedEntry) : List SchedEntry → List SchedEntry
  | [] => [e]
  | f :: fs => if e.day ≤ f.day then e :: f :: fs else f :: insertByDay e fs

/-- The `schedule.sort((a, b) => indexOf(a.day) - indexOf(b.day))` pass
(stable, as required of JS `Array.prototype.sort`). -/
def sortByDay (l : List SchedEntry) : List SchedEntry := l.foldr insertByDay []

/-- The rest-day pass: one Rest entry per weekday not already scheduled. -/
def restFill (s : List SchedEntry) : List SchedEntry :=
  ((List.range 7).filter (fun d => !(s.any (fun e => e.day == d)))).map
    (fun d => ⟨d, Activity.rest⟩)

/-- The schedule after strength/cardio placement and the first sort, before
rest days are appended. The cardio type reaches only note strings in the
source, which are not modelled, hence the inert parameter. -/
def preRestSchedule (strengthDays cardioDays : ℕ) (_cardioType : CardioType)
    (priority : Priority) : List SchedEntry :=
  let raw :=
    if priority = Priority.strength ∨ priority = Priority.balanced then
      let pat := strengthPattern strengthDays
      let strengthEntries := pat.enum.map (fun p =>
        SchedEntry.mk p.2
          (if p.1 % 2 == (if strengthDays > 2 then 0 else 1) then Activity.lowerBody
           else Activity.upperBody))
      strengthEntries ++ cardioFillGo pat cardioDays priority [0, 1, 2, 3, 4, 5, 6] 0
    else
      let cpat := cardioPattern cardioDays
      let cardioEntries := cpat.map (fun d => SchedEntry.mk d Activity.qualityCardio)
      cardioEntries ++ strengthFillGo cpat strengthDays [0, 1, 2, 3, 4, 5, 6] 0
  sortByDay raw

/-- The `optimize_hybrid_schedule` tool handler: place sessions, sort, append
rest days, sort again. -/
def optimizeHybridSchedule (strengthDays cardioDays : ℕ) (cardioType : CardioType)
    (priority : Priority) : List SchedEntry :=
  let s1 := preRestSchedule strengthDays cardioDays cardioType priority
  sortByDay (s1 ++ restFill s1)

/-! ### Plan generator (`generatePlan`, plan tools file) -/

/-- The `WorkoutType` union type (types/index.ts). -/
inductive WorkoutType
  | push | pull | legs | torso | limbs | upper | lower | full_body | custom
deriving DecidableEq, Repr, Fintype

/-- The source string of a workout type tag. -/
def wtChars (wt : WorkoutType) : List Char :=
  match wt with
  | WorkoutType.push => ("push").toList
  | WorkoutType.pull => ("pull").toList
  | WorkoutType.legs => ("legs").toList
  | WorkoutType.torso => ("torso").toList
  | WorkoutType.limbs => ("limbs").toList
  | WorkoutType.upper => ("upper").toList
  | WorkoutType.lower => ("lower").toList
  | WorkoutType.full_body => ("full_body").toList
  | WorkoutType.custom => ("custom").toList

/-- One entry of the `SPLIT_TEMPLATES` table. The source field named
`structure` is a Lean keyword, rendered here as `struct`. -/
structure SplitTemplate where
  days : ℕ
  struct : List WorkoutType
deriving DecidableEq, Repr

/-- The `ppl_3` template, which is also the fallback for unknown tags. -/
def pplThreeTemplate : SplitTemplate :=
  ⟨3, [WorkoutType.push, WorkoutType.pull, WorkoutType.legs]⟩

/-- The `SPLIT_TEMPLATES` record, as a lookup on the string key. -/
def SPLIT_TEMPLATES (tag : List Char) : Option SplitTemplate :=
  if tag = ("ppl").toList then
    some ⟨6, [WorkoutType.push, WorkoutType.pull, WorkoutType.legs,
              WorkoutType.push, WorkoutType.pull, WorkoutType.legs]⟩
  else if tag = ("ppl_3").toList then some pplThreeTemplate
  else if tag = ("upper_lower").toList then
    some ⟨4, [WorkoutType.upper, WorkoutType.lower, WorkoutType.upper, WorkoutType.lower]⟩
  else if tag = ("torso_limbs").toList then
    some ⟨4, [WorkoutType.torso, WorkoutType.limbs, WorkoutType.torso, WorkoutType.limbs]⟩
  else if tag = ("full_body").toList then
    some ⟨3, [WorkoutType.full_body, WorkoutType.full_body, WorkoutType.full_body]⟩
  else if tag = ("bro_split").toList then
    some ⟨5, [WorkoutType.push, WorkoutType.pull, WorkoutType.legs,
              WorkoutType.upper, WorkoutType.lower]⟩
  else none

/-- The `EXERCISE_RECOMMENDATIONS` record. -/
def EXERCISE_RECOMMENDATIONS (wt : WorkoutType) : List (List Char) :=
  match wt with
  | WorkoutType.push =>
    [("Bench Press").toList, ("Overhead Press").toList,
     ("Incline Dumbbell Press").toList, ("Dips").toList,
     ("Lateral Raises").toList, ("Tricep Pushdowns").toList]
  | WorkoutType.pull =>
    [("Deadlift").toList, ("Barbell Row").toList, ("Pull-Ups").toList,
     ("Face Pulls").toList, ("Barbell Curls").toList, ("Hammer Curls").toList]
  | WorkoutType.legs =>
    [("Squat").toList, ("Romanian Deadlift").toList, ("Leg Press").toList,
     ("Leg Curl").toList, ("Calf Raises").toList, ("Lunges").toList]
  | WorkoutType.torso =>
    [("Bench Press").toList, ("Barbell Row").toList, ("Overhead Press").toList,
     ("Pull-Ups").toList, ("Dumbbell Flyes").toList, ("Face Pulls").toList]
  | WorkoutType.limbs =>
    [("Squat").toList, ("Romanian Deadlift").toList, ("Barbell Curls").toList,
     ("Tricep Extensions").toList, ("Lateral Raises").toList, ("Calf Raises").toList]
  | WorkoutType.upper =>
    [("Bench Press").toList, ("Barbell Row").toList, ("Overhead Press").toList,
     ("Pull-Ups").toList, ("Bicep Curls").toList, ("Tricep Extensions").toList]
  | WorkoutType.lower =>
    [("Squat").toList, ("Romanian Deadlift").toList, ("Leg Press").toList,
     ("Leg Curl").toList, ("Calf Raises").toList, ("Hip Thrusts").toList]
  | WorkoutType.full_body =>
    [("Squat").toList, ("Bench Press").toList, ("Barbell Row").toList,
     ("Overhead Press").toList, ("Romanian Deadlift").toList, ("Pull-Ups").toList]
  | WorkoutType.custom => []

/-- The goal enum of `generatePlan`. -/
inductive PlanGoal
  | hypertrophy | strength | endurance
deriving DecidableEq, Repr, Fintype

/-- The per-goal `{min, max, sets}` rep configuration. -/
structure RepConfig where
  min : ℕ
  max : ℕ
  sets : ℕ
deriving DecidableEq, Repr

/-- The `repRanges` table of `generatePlan`. -/
def repRanges (goal : PlanGoal) : RepConfig :=
  match goal with
  | PlanGoal.hypertrophy => ⟨8, 12, 4⟩
  | PlanGoal.strength => ⟨3, 6, 5⟩
  | PlanGoal.endurance => ⟨12, 20, 3⟩

/-- Worker for `squashSpaces`; the flag records whether the previous character
belonged to a whitespace run already rewritten to a dash. -/
def squashSpacesGo : Bool → List Char → List Char
  | _, [] => []
  | prevSpace, c :: cs =>
    if isSpaceCh c then
      if prevSpace then squashSpacesGo true cs
      else '-' :: squashSpacesGo true cs
    else c :: squashSpacesGo false cs

/-- `replace(/\s+/g, '-')`: each maximal whitespace run becomes one dash. -/
def squashSpaces (l : List Char) : List Char := squashSpacesGo false l

/-- The exercise id:
``exercise-${name.toLowerCase().replace(/\s+/g, '-')}``. -/
def exerciseIdOf (nm : List Char) : List Char :=
  ("exercise-").toList ++ squashSpaces (nm.map Char.toLower)

/-- `workoutType.slice(1).replace('_', ' ')`: only the first underscore is
replaced, as with a string pattern in JS `String.prototype.replace`. -/
def replaceFirstUnderscore : List Char → List Char
  | [] => []
  | c :: cs => if c = '_' then ' ' :: cs else c :: replaceFirstUnderscore cs

/-- The display name of a plan day:
``${workoutType.charAt(0).toUpperCase() + workoutType.slice(1).replace('_', ' ')} Day``. -/
def dayNameChars (wt : WorkoutType) : List Char :=
  match wtChars wt with
  | [] => (" Day").toList
  | c :: cs => (c.toUpper :: replaceFirstUnderscore cs) ++ (" Day").toList

/-- `PlanExercise` (types/index.ts). -/
structure PlanExercise where
  exerciseId : List Char
  order : ℕ
  targetSets : ℕ
  targetRepsMin : ℕ
  targetRepsMax : ℕ
  notes : Option (List Char)
deriving DecidableEq, Repr

/-- `PlanDay` (types/index.ts). -/
structure PlanDay where
  dayNumber : ℕ
  name : List Char
  workoutType : WorkoutType
  exercises : List PlanExercise
deriving DecidableEq, Repr

/-- `TrainingPlan` (types/index.ts). -/
structure TrainingPlan where
  id : List Char
  name : List Char
  daysPerWeek : ℕ
  splitType : List Char
  days : List PlanDay
deriving DecidableEq, Repr

/-- Decimal rendering of a natural number (the `${Date.now()}` interpolation),
written with explicit fuel so it is structurally recursive. -/
def natReprGo : ℕ → ℕ → List Char → List Char
  | 0, _, acc => acc
  | fuel + 1, n, acc =>
    let d := Char.ofNat (48 + n % 10)
    if n < 10 then d :: acc
    else natReprGo fuel (n / 10) (d :: acc)

/-- Decimal rendering of a natural number. -/
def natRepr (n : ℕ) : List Char := natReprGo (n + 1) n []

/-- The strength-day loop body of `generatePlan`: one `PlanDay` per entry of
the split structure, capped at `min(daysPerWeek, structure.length)`. -/
def mkPlanDays (template : List WorkoutType) (daysPerWeek : ℕ) (rc : RepConfig) :
    List PlanDay :=
  (List.range (Nat.min daysPerWeek template.length)).map (fun i =>
    let wt := template.getD i WorkoutType.custom
    let exs := (EXERCISE_RECOMMENDATIONS wt).take 6
    { dayNumber := i + 1
      name := dayNameChars wt
      workoutType := wt
      exercises := exs.enum.map (fun p =>
        { exerciseId := exerciseIdOf p.2
          order := p.1 + 1
          targetSets := rc.sets
          targetRepsMin := rc.min
          targetRepsMax := rc.max
          notes := none }) })

/-- `generatePlan` (plan tools file). `Date.now()` is an implicit input of the
source function; it is made explicit here as the `now` parameter, which flows
only into the plan id ``plan-${Date.now()}``. -/
def generatePlan (now : ℕ) (name : List Char) (splitType : List Char)
    (daysPerWeek : ℕ) (goal : PlanGoal) (includeCardio : Bool) : TrainingPlan :=
  let template := (SPLIT_TEMPLATES splitType).getD pplThreeTemplate
  let rc := repRanges goal
  let days := mkPlanDays template.struct daysPerWeek rc
  let days :=
    if includeCardio ∧ daysPerWeek > days.length then
      days ++ [{ dayNumber := days.length + 1
                 name := ("Easy Run").toList
                 workoutType := WorkoutType.custom
                 exercises := [{ exerciseId := ("cardio-easy-run").toList
                                 order := 1
                                 targetSets := 1
                                 targetRepsMin := 20
                                 targetRepsMax := 40
                                 notes := some (("20-40 minutes Zone 2 running").toList) }] }]
    else days
  { id := ("plan-").toList ++ natRepr now
    name := name
    daysPerWeek := daysPerWeek
    splitType := splitType
    days := days }

/-! ### Helper lemmas -/

/-- The non-single-rep branch of the estimator with the rounding spelled as a
mathematical floor. -/
theorem calculateEstimated1RM_of_ne_one (w : ℚ) (r : ℕ) (h : r ≠ 1) :
    calculateEstimated1RM w r = (⌊w * (1 + (r : ℚ) / 30) * 10 + 1/2⌋ : ℚ) / 10 := by
  rw [calculateEstimated1RM, if_neg h, jsRound_eq_floor]

/-! ### Claim theorems -/

/-- C3 counterexample: at `lastWeight = 10.25`, `lastReps = 5`, exertion 10,
barbell, the recommended weight is `10.25 * 0.9 = 9.225`, not the one-decimal
rounding `9.2` the claim demands: the deload branch does not round. -/
theorem C3_counterexample :
    (0 : ℚ) < 41/4 ∧ (1 : ℤ) ≤ 5 ∧ (10 : ℤ) ≤ 10 ∧
      (getProgressionLogic (41/4) 5 10 Equipment.barbell).weight
        ≠ roundTo1 ((41/4) * (9/10)) := by
  refine ⟨by norm_num, by norm_num, by norm_num, ?_⟩
  rw [getProgressionLogic, if_neg (by norm_num), if_neg (by norm_num),
    if_neg (by norm_num)]
  rw [roundTo1, jsRound_eq_floor]
  norm_num

/-- C3 (amended): for exertion ≥ 10 the recommendation is exactly
`lastWeight * 0.9` (unrounded), rep range `[lastReps, lastReps + 2]`, trend
`deload_needed`, for every equipment kind. -/
theorem C3_deload_branch :
    ∀ (w : ℚ) (reps rpe : ℤ) (e : Equipment), 0 < w → 1 ≤ reps → 10 ≤ rpe →
      getProgressionLogic w reps rpe e =
        ⟨w * (9/10), reps, reps + 2, Trend.deload_needed⟩ := by
  intro w reps rpe e _ _ hrpe
  rw [getProgressionLogic, if_neg (by omega), if_neg (by omega), if_neg (by omega)]

/-- C3 witness: the deload branch evaluated at weight 100, 8 reps, RPE 10. -/
theorem C3_deload_branch_witness :
    (0 : ℚ) < 100 ∧ (1 : ℤ) ≤ 8 ∧ (10 : ℤ) ≤ 10 ∧
      getProgressionLogic 100 8 10 Equipment.dumbbell
        = ⟨100 * (9/10), 8, 8 + 2, Trend.deload_needed⟩ :=
  ⟨by norm_num, by norm_num, by norm_num,
    C3_deload_branch 100 8 10 Equipment.dumbbell (by norm_num) (by norm_num)
      (by norm_num)⟩

/-- C4 counterexample: at weight `0.1` the one-decimal rounding absorbs the
per-rep increment: reps 2 and reps 3 produce the same estimate `0.1`, so the
estimator is not strictly increasing in reps for every positive weight. -/
theorem C4_counterexample :
    (0 : ℚ) < 1/10 ∧ (2 : ℕ) < 3 ∧
      calculateEstimated1RM (1/10) 2 = calculateEstimated1RM (1/10) 3 := by
  refine ⟨by norm_num, by norm_num, ?_⟩
  rw [calculateEstimated1RM_of_ne_one (1/10) 2 (by norm_num),
    calculateEstimated1RM_of_ne_one (1/10) 3 (by norm_num)]
  norm_num

/-- C4 (amended): `estimate1RM(w, 1) = w` for every positive weight, and for
every weight `w ≥ 3` the estimate is strictly increasing in reps on `r ≥ 1`
(strictness can fail below `w = 3` because of the one-decimal rounding). -/
theorem C4_estimator_strict_mono :
    (∀ w : ℚ, 0 < w → calculateEstimated1RM w 1 = w) ∧
      ∀ w : ℚ, 3 ≤ w → ∀ r : ℕ, 1 ≤ r →
        calculateEstimated1RM w r < calculateEstimated1RM w (r + 1) := by
  constructor
  · intro w _
    simp [calculateEstimated1RM]
  · intro w hw r hr
    rcases eq_or_lt_of_le hr with h1 | h2
    · rw [← h1]
      rw [calculateEstimated1RM_of_ne_one w (1 + 1) (by norm_num)]
      have hfl := Int.sub_one_lt_floor (w * (1 + ((1 + 1 : ℕ) : ℚ) / 30) * 10 + 1/2)
      push_cast at hfl
      simp only [calculateEstimated1RM, if_pos rfl]
      push_cast
      linarith
    · have hr2 : 2 ≤ r := h2
      rw [calculateEstimated1RM_of_ne_one w r (by omega),
        calculateEstimated1RM_of_ne_one w (r + 1) (by omega)]
      have hb : w * (1 + ((r + 1 : ℕ) : ℚ) / 30) * 10 + 1/2
          = (w * (1 + (r : ℚ) / 30) * 10 + 1/2) + w/3 := by
        push_cast
        ring
      rw [hb]
      have h1 : (w * (1 + (r : ℚ) / 30) * 10 + 1/2) + 1
          ≤ (w * (1 + (r : ℚ) / 30) * 10 + 1/2) + w/3 := by linarith
      have h2' : ⌊w * (1 + (r : ℚ) / 30) * 10 + 1/2⌋
          < ⌊(w * (1 + (r : ℚ) / 30) * 10 + 1/2) + w/3⌋ := by
        have hmono := Int.floor_mono h1
        rw [Int.floor_add_one] at hmono
        omega
      have hq : (⌊w * (1 + (r : ℚ) / 30) * 10 + 1/2⌋ : ℚ)
          < (⌊(w * (1 + (r : ℚ) / 30) * 10 + 1/2) + w/3⌋ : ℚ) := by
        exact_mod_cast h2'
      linarith

/-- C4 witness: the amended monotonicity evaluated at weight 5, reps 3 vs 4,
and the fixed point at one rep. -/
theorem C4_estimator_strict_mono_witness :
    ((0 : ℚ) < 5 ∧ calculateEstimated1RM 5 1 = 5) ∧
      (3 : ℚ) ≤ 5 ∧ (1 : ℕ) ≤ 3 ∧
        calculateEstimated1RM 5 3 < calculateEstimated1RM 5 (3 + 1) :=
  ⟨⟨by norm_num, C4_estimator_strict_mono.1 5 (by norm_num)⟩,
    by norm_num, by norm_num, C4_estimator_strict_mono.2 5 (by norm_num) 3 (by norm_num)⟩

/-- C7: for exertion ≤ 7 the recommendation adds exactly the equipment
increment (2.5 for barbell, 1.25 for every other kind), so the new weight
strictly exceeds the old; rep range `[lastReps − 1, lastReps + 1]`, trend
`progressing`. -/
theorem C7_progress_branch :
    ∀ (w : ℚ) (reps rpe : ℤ) (e : Equipment), 0 < w → 1 ≤ reps → rpe ≤ 7 →
      getProgressionLogic w reps rpe e =
          ⟨w + (if e = Equipment.barbell then (5 : ℚ)/2 else 5/4),
            reps - 1, reps + 1, Trend.progressing⟩ ∧
        w < (getProgressionLogic w reps rpe e).weight := by
  intro w reps rpe e _ _ hrpe
  have heq : getProgressionLogic w reps rpe e =
      ⟨w + (if e = Equipment.barbell then (5 : ℚ)/2 else 5/4),
        reps - 1, reps + 1, Trend.progressing⟩ := by
    rw [getProgressionLogic, if_pos hrpe, equipIncrement]
  refine ⟨heq, ?_⟩
  rw [heq]
  show w < w + (if e = Equipment.barbell then (5 : ℚ)/2 else 5/4)
  by_cases he : e = Equipment.barbell
  · rw [if_pos he]
    linarith
  · rw [if_neg he]
    linarith

/-- C7 witness: the progression branch evaluated at weight 20, 5 reps, RPE 6,
kettlebell (a non-barbell kind, increment 1.25). -/
theorem C7_progress_branch_witness :
    (0 : ℚ) < 20 ∧ (1 : ℤ) ≤ 5 ∧ (6 : ℤ) ≤ 7 ∧
      getProgressionLogic 20 5 6 Equipment.kettlebell =
          ⟨20 + (if Equipment.kettlebell = Equipment.barbell then (5 : ℚ)/2 else 5/4),
            5 - 1, 5 + 1, Trend.progressing⟩ ∧
        (20 : ℚ) < (getProgressionLogic 20 5 6 Equipment.kettlebell).weight :=
  ⟨by norm_num, by norm_num, by norm_num,
    C7_progress_branch 20 5 6 Equipment.kettlebell (by norm_num) (by norm_num)
      (by norm_num)⟩

/-- C9 counterexample: at weight `0.14` and 2 reps the rounded estimate is
`0.1 < 0.14`, violating the `estimated1RM ≥ weight` invariant for small
weights. -/
theorem C9_counterexample :
    (0 : ℚ) < 7/50 ∧ (1 : ℕ) ≤ 2 ∧
      ¬ ((7 : ℚ)/50 ≤ calculateEstimated1RM (7/50) 2) := by
  refine ⟨by norm_num, by norm_num, ?_⟩
  rw [calculateEstimated1RM_of_ne_one (7/50) 2 (by norm_num)]
  norm_num

/-- C9 (amended): the invariant `estimate1RM(w, r) ≥ w` holds for every
`r ≥ 1` once `w ≥ 3/4`; below that threshold the one-decimal rounding can
push the estimate under the weight. -/
theorem C9_estimator_lower_bound :
    ∀ w : ℚ, 3/4 ≤ w → ∀ r : ℕ, 1 ≤ r → w ≤ calculateEstimated1RM w r := by
  intro w hw r hr
  rcases eq_or_lt_of_le hr with h1 | h2
  · rw [← h1]
    simp [calculateEstimated1RM]
  · have hr2 : 2 ≤ r := h2
    rw [calculateEstimated1RM_of_ne_one w r (by omega)]
    have hfl := Int.sub_one_lt_floor (w * (1 + (r : ℚ) / 30) * 10 + 1/2)
    have hrq : (2 : ℚ) ≤ (r : ℚ) := by exact_mod_cast hr2
    have hprod : 2 * w ≤ (r : ℚ) * w :=
      mul_le_mul_of_nonneg_right hrq (by linarith)
    nlinarith [hfl, hprod]

/-- C9 witness: the lower bound evaluated at weight 1, 2 reps. -/
theorem C9_estimator_lower_bound_witness :
    (3 : ℚ)/4 ≤ 1 ∧ (1 : ℕ) ≤ 2 ∧ (1 : ℚ) ≤ calculateEstimated1RM 1 2 :=
  ⟨by norm_num, by norm_num, C9_estimator_lower_bound 1 (by norm_num) 2 (by norm_num)⟩

/-- C1 counterexample: `totalWeeks = 4`, hypertrophy, `includeDeload = false`
produces only weeks `[1, 2, 3]` — the remainder week is emitted only inside
the `if (includeDeload)` guard, so the output is not the full `{1,...,4}`. -/
theorem C1_counterexample :
    ¬ ((calculatePeriodization 4 PeriodizationGoal.hypertrophy false).map
          (fun e => e.week) = List.range' 1 4) ∧
      (calculatePeriodization 4 PeriodizationGoal.hypertrophy false).map
          (fun e => e.week) = [1, 2, 3] := by
  decide

/-- C1 (amended): for every `totalWeeks ∈ [4,16]` the periodization weeks are
exactly the contiguous `{1,...,totalWeeks}` for the strength and peaking goals
(either deload setting) and for hypertrophy with deload; for hypertrophy
without deload the output stops after the accumulation and intensification
phases, at week `⌊0.5t⌋ + ⌊0.35t⌋`. -/
theorem C1_periodization_weeks :
    ∀ t ∈ [4, 5, 6, 7, 8, 9, 10, 11, 12, 13, 14, 15, 16],
      ∀ (g : PeriodizationGoal) (d : Bool),
        ((g = PeriodizationGoal.strength ∨ g = PeriodizationGoal.peaking ∨ d = true) →
          (calculatePeriodization t g d).map (fun e => e.week) = List.range' 1 t) ∧
        (g = PeriodizationGoal.hypertrophy → d = false →
          (calculatePeriodization t g d).map (fun e => e.week)
            = List.range' 1 (t * 50 / 100 + t * 35 / 100)) := by
  decide

/-- C1 witness: the full partition at 8 strength weeks without deload. -/
theorem C1_periodization_weeks_witness :
    (calculatePeriodization 8 PeriodizationGoal.strength false).map (fun e => e.week)
      = List.range' 1 8 :=
  (C1_periodization_weeks 8 (by decide) PeriodizationGoal.strength false).1
    (Or.inl rfl)

/-- C2: for every admissible configuration the hybrid schedule lists the
weekday indices 0..6 (Monday..Sunday) exactly once each, in canonical order,
and every weekday untouched by the strength/cardio placement carries a Rest
entry. -/
theorem C2_schedule_partition :
    ∀ sd ∈ [2, 3, 4], ∀ cd ∈ [1, 2, 3], ∀ (ct : CardioType) (p : Priority),
      (optimizeHybridSchedule sd cd ct p).map (fun e => e.day)
          = [0, 1, 2, 3, 4, 5, 6] ∧
        ∀ d ∈ List.range 7,
          ¬ ((preRestSchedule sd cd ct p).any (fun e => e.day == d) = true) →
          SchedEntry.mk d Activity.rest ∈ optimizeHybridSchedule sd cd ct p := by
  decide

/-- C2 witness: the 7-day cover at 2 strength days, 1 cardio day, running,
strength priority, and the Rest entry on the unassigned Sunday. -/
theorem C2_schedule_partition_witness :
    (optimizeHybridSchedule 2 1 CardioType.running Priority.strength).map
        (fun e => e.day) = [0, 1, 2, 3, 4, 5, 6] ∧
      SchedEntry.mk 6 Activity.rest
        ∈ optimizeHybridSchedule 2 1 CardioType.running Priority.strength :=
  ⟨(C2_schedule_partition 2 (by decide) 1 (by decide) CardioType.running
      Priority.strength).1,
    (C2_schedule_partition 2 (by decide) 1 (by decide) CardioType.running
      Priority.strength).2 6 (by decide) (by decide)⟩

/-- C5 counterexample: the description "could do 15 more" is mapped to
`10 − 15 = −5`, outside the claimed 1..10 range. -/
theorem C5_counterexample :
    ¬ (1 ≤ interpretEffort (("could do 15 more").toList) ∧
        interpretEffort (("could do 15 more").toList) ≤ 10) := by
  decide

/-- C5 (amended): the effort interpreter always returns an integer ≤ 10, and
the result can drop below 1 only when the reps-in-reserve pattern matched a
number greater than 9, in which case the result is exactly `10 − N`. -/
theorem C5_effort_bounds :
    ∀ s : List Char,
      interpretEffort s ≤ 10 ∧
        (interpretEffort s < 1 →
          ∃ n : ℕ, findNumMore (s.map Char.toLower) = some n ∧ 9 < n ∧
            interpretEffort s = 10 - (n : ℤ)) := by
  intro s
  simp only [interpretEffort]
  split
  · exact ⟨by norm_num, fun h => absurd h (by norm_num)⟩
  · split
    · refine ⟨by omega, fun hlt => ?_⟩
      cases hopt : findNumMore (s.map Char.toLower) with
      | none =>
        rw [hopt] at hlt
        simp only [Option.getD_none] at hlt
        omega
      | some n =>
        rw [hopt] at hlt
        simp only [Option.getD_some] at hlt ⊢
        exact ⟨n, rfl, by omega, rfl⟩
    · split
      · exact ⟨by norm_num, fun h => absurd h (by norm_num)⟩
      · split
        · exact ⟨by norm_num, fun h => absurd h (by norm_num)⟩
        · split
          · exact ⟨by norm_num, fun h => absurd h (by norm_num)⟩
          · split
            · exact ⟨by norm_num, fun h => absurd h (by norm_num)⟩
            · exact ⟨by norm_num, fun h => absurd h (by norm_num)⟩

/-- C5 witness: the below-range case discharged at "could do 15 more", where
the matched reps-in-reserve is 15. -/
theorem C5_effort_bounds_witness :
    interpretEffort (("could do 15 more").toList) < 1 ∧
      ∃ n : ℕ,
        findNumMore ((("could do 15 more").toList).map Char.toLower) = some n ∧
          9 < n ∧ interpretEffort (("could do 15 more").toList) = 10 - (n : ℤ) :=
  ⟨by decide, (C5_effort_bounds (("could do 15 more").toList)).2 (by decide)⟩

/-- C6 counterexample: with 3 strength days, 1 cardio day, strength priority,
the Tuesday cardio entry is labeled Easy although the following day
(Wednesday) is an Upper Body day, not a leg day — under strength priority the
source labels every cardio day Easy regardless of the lookahead. -/
theorem C6_counterexample :
    ¬ (∀ e ∈ optimizeHybridSchedule 3 1 CardioType.running Priority.strength,
        (e.activity = Activity.easyCardio ∨ e.activity = Activity.qualityCardio) →
        (e.activity = Activity.easyCardio ↔
          SchedEntry.mk ((e.day + 1) % 7) Activity.lowerBody
            ∈ optimizeHybridSchedule 3 1 CardioType.running Priority.strength)) := by
  decide

/-- C6 (amended): in strength-first scheduling a cardio entry is Easy iff the
priority is strength (every cardio is Easy then) or the following day sits in
an even-indexed slot of the strength pattern — a leg day when
`strengthDays > 2`, but the upper-body Monday slot when `strengthDays = 2`;
otherwise it is Quality. -/
theorem C6_cardio_labels :
    ∀ sd ∈ [2, 3, 4], ∀ cd ∈ [1, 2, 3], ∀ ct : CardioType,
      ∀ p ∈ [Priority.strength, Priority.balanced],
        ∀ e ∈ optimizeHybridSchedule sd cd ct p,
          (e.activity = Activity.easyCardio ∨ e.activity = Activity.qualityCardio) →
          (e.activity = Activity.easyCardio ↔
            (p = Priority.strength ∨ legCheckNext (strengthPattern sd) e.day = true)) := by
  decide

/-- C6 witness: the label rule discharged at 2 strength days, 1 cardio day,
balanced priority, on the Tuesday Quality entry. -/
theorem C6_cardio_labels_witness :
    SchedEntry.mk 1 Activity.qualityCardio
        ∈ optimizeHybridSchedule 2 1 CardioType.running Priority.balanced ∧
      ((SchedEntry.mk 1 Activity.qualityCardio).activity = Activity.easyCardio ↔
        (Priority.balanced = Priority.strength ∨
          legCheckNext (strengthPattern 2) (SchedEntry.mk 1 Activity.qualityCardio).day
            = true)) :=
  ⟨by decide,
    C6_cardio_labels 2 (by decide) 1 (by decide) CardioType.running
      Priority.balanced (by decide) (SchedEntry.mk 1 Activity.qualityCardio)
      (by decide) (Or.inr rfl)⟩

/-- C8 counterexample: the same arguments at two different clock readings give
different plans — the id embeds `Date.now()`. -/
theorem C8_counterexample :
    generatePlan 0 (("My Plan").toList) (("ppl_3").toList) 3 PlanGoal.hypertrophy false
        ≠ generatePlan 1 (("My Plan").toList) (("ppl_3").toList) 3 PlanGoal.hypertrophy false ∧
      (generatePlan 0 (("My Plan").toList) (("ppl_3").toList) 3 PlanGoal.hypertrophy false).id
        ≠ (generatePlan 1 (("My Plan").toList) (("ppl_3").toList) 3 PlanGoal.hypertrophy false).id := by
  constructor
  · decide
  · decide

/-- C8 (amended): `generatePlan` is deterministic in everything except the
plan id: for any two invocation times all other fields agree, and the id is
exactly `plan-` followed by the decimal clock reading. -/
theorem C8_plan_deterministic_mod_id :
    ∀ (now₁ now₂ : ℕ) (nm tag : List Char) (d : ℕ) (g : PlanGoal) (c : Bool),
      (generatePlan now₁ nm tag d g c).name = (generatePlan now₂ nm tag d g c).name ∧
      (generatePlan now₁ nm tag d g c).daysPerWeek
          = (generatePlan now₂ nm tag d g c).daysPerWeek ∧
      (generatePlan now₁ nm tag d g c).splitType
          = (generatePlan now₂ nm tag d g c).splitType ∧
      (generatePlan now₁ nm tag d g c).days = (generatePlan now₂ nm tag d g c).days ∧
      (generatePlan now₁ nm tag d g c).id = ("plan-").toList ++ natRepr now₁ := by
  intro now₁ now₂ nm tag d g c
  exact ⟨rfl, rfl, rfl, rfl, rfl⟩

/-- C10: in cardio-priority scheduling with 3 cardio days (Tue/Thu/Sat),
exactly one strength entry is placed — Monday, Upper Body — for every
requested strength-day count in 2..4: each remaining day is a cardio day or
the day immediately after one. -/
theorem C10_cardio_priority_single_strength :
    ∀ sd ∈ [2, 3, 4], ∀ ct : CardioType,
      ((optimizeHybridSchedule sd 3 ct Priority.cardio).filter
          (fun e => e.activity == Activity.upperBody
            || e.activity == Activity.lowerBody)).length = 1 ∧
        SchedEntry.mk 0 Activity.upperBody
          ∈ optimizeHybridSchedule sd 3 ct Priority.cardio := by
  decide

/-- C10 witness: the single Monday strength session at `strengthDays = 4`. -/
theorem C10_cardio_priority_single_strength_witness :
    ((optimizeHybridSchedule 4 3 CardioType.mixed Priority.cardio).filter
        (fun e => e.activity == Activity.upperBody
          || e.activity == Activity.lowerBody)).length = 1 ∧
      SchedEntry.mk 0 Activity.upperBody
        ∈ optimizeHybridSchedule 4 3 CardioType.mixed Priority.cardio :=
  C10_cardio_priority_single_strength 4 (by decide) CardioType.mixed

end MyHealth
